import Mathlib

/-!
Verification development for the fogswap-sdk-rust client library
(`src/lib.rs`, `src/resp_structs.rs`, `src/error.rs`).

The library is a thin HTTP client: one private dispatcher `send_request`
builds a GET (query string, null parameters dropped) or POST (JSON body)
request, checks for HTTP status 200, parses the body as generic JSON, and
four domain operations unwrap a uniform JSON envelope of shape
`\x7b error?, result? \x7d` into typed results or typed errors.

We shallow-embed the code: JSON values are an inductive type, the HTTP
transport is an explicit function from requests to responses, fallible
steps return `Option`, and Rust `unwrap()` panics are an explicit
`Outcome.panic` constructor. `f64` amounts are modelled as `Rat`: every
claim treats numbers as opaque pass-through values, never as arithmetic.
-/

/-- Model of `serde_json::Value`. Objects are association lists in
insertion order; `serde_json`'s map may reorder keys (default `BTreeMap`
sorts them) and the GET path collects them into a `HashMap` whose
iteration order is unspecified, so no theorem below depends on the order
of object fields, only on key membership. -/
inductive Json where
  | null
  | bool (b : Bool)
  | num (n : Rat)
  | str (s : String)
  | arr (elems : List Json)
  | obj (fields : List (String × Json))

namespace Json

/-- Model of `Map<String, Value>::get` on a `serde_json` object's field
list: first binding of the key. -/
def lookupField : List (String × Json) → String → Option Json
  | [], _ => none
  | (k, v) :: rest, key => if k = key then some v else lookupField rest key

/-- Model of `serde_json::Value::get(key)`: field lookup on objects,
`None` on every other value. -/
def get : Json → String → Option Json
  | .obj fields, key => lookupField fields key
  | _, _ => none

/-- Model of `Value::as_object`. -/
def asObject : Json → Option (List (String × Json))
  | .obj fields => some fields
  | _ => none

/-- Model of `Value::as_str`. -/
def asStr : Json → Option String
  | .str s => some s
  | _ => none

/-- Model of `Value::is_null`. -/
def isNull : Json → Bool
  | .null => true
  | _ => false

end Json

/-! ### JSON serialization (model of compact `serde_json` output, as sent
by `reqwest::RequestBuilder::json`) -/

/-- Hex digit for a value below 16. -/
def hexDigit (n : Nat) : Char :=
  if n < 10 then Char.ofNat (48 + n) else Char.ofNat (87 + (n - 10))

/-- Two-digit lowercase hex of a byte. -/
def hexByte (n : Nat) : String :=
  String.mk [hexDigit (n / 16 % 16), hexDigit (n % 16)]

/-- JSON string escaping as `serde_json` performs it: quote, backslash and
control characters escaped, everything else verbatim. -/
def escapeJsonChar (c : Char) : String :=
  if c = '"' then "\\\""
  else if c = '\\' then "\\\\"
  else if c = '\n' then "\\n"
  else if c = '\t' then "\\t"
  else if c = '\r' then "\\r"
  else if c.toNat < 32 then "\\u00" ++ hexByte c.toNat
  else String.singleton c

/-- A JSON string literal: quotes around the escaped contents. -/
def renderJsonString (s : String) : String :=
  "\"" ++ String.join (s.data.map escapeJsonChar) ++ "\""

/-- Decimal text of a JSON number. `serde_json` prints `f64` values with a
shortest-roundtrip algorithm; the claims only ever treat numeric text as
opaque, so rationals print as integer text when integral and as
`num/den` otherwise. -/
def renderJsonNum (q : Rat) : String :=
  if q.den = 1 then toString q.num else toString q.num ++ "/" ++ toString q.den

mutual

/-- Compact rendering of a JSON value (model of `serde_json::to_string`,
which `reqwest` uses for a POST body). Braces are the object delimiters. -/
def Json.render : Json → String
  | .null => "null"
  | .bool b => if b then "true" else "false"
  | .num n => renderJsonNum n
  | .str s => renderJsonString s
  | .arr elems => "[" ++ Json.renderElems elems ++ "]"
  | .obj fields => "\x7b" ++ Json.renderFields fields ++ "\x7d"

/-- Comma-separated rendering of array elements. -/
def Json.renderElems : List Json → String
  | [] => ""
  | [x] => x.render
  | x :: rest => x.render ++ "," ++ Json.renderElems rest

/-- Comma-separated rendering of `"key":value` object fields. -/
def Json.renderFields : List (String × Json) → String
  | [] => ""
  | [(k, v)] => renderJsonString k ++ ":" ++ v.render
  | (k, v) :: rest => renderJsonString k ++ ":" ++ v.render ++ "," ++ Json.renderFields rest

end

/-! ### URL query-string encoding (model of `reqwest`'s `query` path,
which uses form-urlencoding) -/

/-- UTF-8 bytes of a single character. -/
def utf8Bytes (c : Char) : List Nat :=
  let n := c.toNat
  if n < 0x80 then [n]
  else if n < 0x800 then [0xC0 + n / 64, 0x80 + n % 64]
  else if n < 0x10000 then [0xE0 + n / 4096, 0x80 + n / 64 % 64, 0x80 + n % 64]
  else [0xF0 + n / 262144, 0x80 + n / 4096 % 64, 0x80 + n / 64 % 64, 0x80 + n % 64]

/-- Percent-encoding of one character: ASCII alphanumerics and `-_.~`
pass through, every other character's UTF-8 bytes are `%HH`-escaped.
In particular `=` and `&` never survive unescaped inside a key or value. -/
def encodeQueryChar (c : Char) : String :=
  if c.isAlphanum || c = '-' || c = '_' || c = '.' || c = '~' then
    String.singleton c
  else
    String.join ((utf8Bytes c).map (fun b => "%" ++ hexByte b))

/-- Percent-encoding of a whole key or value. -/
def encodeQueryStr (s : String) : String :=
  String.join (s.data.map encodeQueryChar)

/-- Text of a primitive JSON value in a query-string entry. The GET path
only ever reaches this with non-null primitives (nulls were dropped, and
the four operations' payloads are flat); arrays/objects would make the
urlencoder fail and are rendered as empty text here. -/
def queryValueText : Json → String
  | .str s => s
  | .bool b => if b then "true" else "false"
  | .num n => renderJsonNum n
  | _ => ""

/-- One `key=value` query entry, percent-encoded. -/
def renderQueryEntry (kv : String × Json) : String :=
  encodeQueryStr kv.1 ++ "=" ++ encodeQueryStr (queryValueText kv.2)

/-- `&`-separated query entries. -/
def renderQuery : List (String × Json) → String
  | [] => ""
  | [kv] => renderQueryEntry kv
  | kv :: rest => renderQueryEntry kv ++ "&" ++ renderQuery rest

/-- The query suffix appended to a URL: empty when there are no entries
(`reqwest` drops an empty query), otherwise `?` plus the entries. -/
def querySuffix (params : List (String × Json)) : String :=
  match params with
  | [] => ""
  | _ => "?" ++ renderQuery params

/-! ### Transport model and error taxonomy -/

/-- Model of `reqwest::Method` as used here: the two supported verbs plus
everything else (PUT, DELETE, ...), carried by name. -/
inductive Method where
  | GET
  | POST
  | other (name : String)
deriving DecidableEq, Repr

/-- The outbound HTTP request that `send_request` hands to the transport:
method, full URL (query string included for GET), whether
`Content-Type: application/json` was set, and the serialized body. -/
structure HttpRequest where
  method : Method
  url : String
  contentTypeJson : Bool
  body : Option String
deriving DecidableEq, Repr

/-- The transport's answer: an HTTP status code, and the body's parse as
generic JSON (`none` models a body that is not valid JSON, which
`resp.json::<Value>()` turns into a propagated error). -/
structure HttpResponse where
  status : Nat
  body : Option Json

/-- Model of `FogswapSdkError` (`src/error.rs`). -/
inductive FogswapSdkError where
  | UnsupportedMethod
  | SendRequestError
  | GetAvailableCoinsError (msg : String)
  | GetEstimatedExchangeAmountError (msg : String)
  | CreateTransactionError (msg : String)
  | GetTransactionInfoError (msg : String)
deriving DecidableEq, Repr

/-- Result of a fallible SDK call. Rust's `anyhow::Result` separates
typed `FogswapSdkError`s from propagated serde/transport errors, and an
`unwrap()` on `None` aborts instead of returning; the embedding makes
all three visible. -/
inductive Outcome (α : Type) where
  | ok (a : α)
  | error (e : FogswapSdkError)
  | formatError
  | panic
deriving DecidableEq, Repr

/-- Sequencing after `send_request` (Rust's `?` on the dispatcher result,
then the operation's continuation). -/
def Outcome.bind {α β : Type} : Outcome α → (α → Outcome β) → Outcome β
  | .ok a, f => f a
  | .error e, _ => .error e
  | .formatError, _ => .formatError
  | .panic, _ => .panic

/-! ### The request dispatcher (`send_request`, `src/lib.rs` lines 40-90) -/

/-- What the `match req_method` block of `send_request` produces before
any network activity: a built request handed to the transport, the
`UnsupportedMethod` early return, or the panic of
`payload.as_object().unwrap()` on a non-object GET payload. -/
inductive BuildResult where
  | req (r : HttpRequest)
  | unsupported
  | panic
deriving DecidableEq, Repr

/-- The request-construction half of `send_request`: `url = base_url ++
endpoint`; GET flattens a payload object into query parameters, dropping
every null-valued entry (the `flat_map` at lines 58-64); POST serializes
the payload as a JSON body with `Content-Type: application/json`; any
other method is rejected. -/
def build_request (base_url : String) (req_method : Method) (endpoint : String)
    (payload : Option Json) : BuildResult :=
  let url := base_url ++ endpoint
  match req_method with
  | .GET =>
    match payload with
    | some p =>
      match p.asObject with
      | none => .panic
      | some fields =>
        let params := fields.filter (fun kv => !kv.2.isNull)
        .req ⟨.GET, url ++ querySuffix params, false, none⟩
    | none => .req ⟨.GET, url, false, none⟩
  | .POST =>
    match payload with
    | some p => .req ⟨.POST, url, true, some p.render⟩
    | none => .req ⟨.POST, url, true, none⟩
  | .other _ => .unsupported

/-- The response-handling half of `send_request` (`src/lib.rs` lines
83-88): any status other than exactly 200 fails with `SendRequestError`
without touching the body; on 200 the body's JSON parse is handed back,
a parse failure propagating. -/
def handle_response (resp : HttpResponse) : Outcome Json :=
  if resp.status ≠ 200 then .error .SendRequestError
  else
    match resp.body with
    | some body => .ok body
    | none => .formatError

/-- Model of `send_request`: build the request, perform the single round
trip, and handle the response. The transport is an explicit function so
theorems can quantify over every possible server behavior. -/
def send_request (transport : HttpRequest → HttpResponse) (base_url : String)
    (req_method : Method) (endpoint : String) (payload : Option Json) :
    Outcome Json :=
  match build_request base_url req_method endpoint payload with
  | .unsupported => .error .UnsupportedMethod
  | .panic => .panic
  | .req r => handle_response (transport r)

/-! ### Domain data types and their serde decoders
(`src/resp_structs.rs`) -/

/-- `TxType` (`src/resp_structs.rs` lines 70-74). -/
inductive TxType where
  | Standard
  | Private
deriving DecidableEq, Repr

/-- The derived `serde::Serialize` for `TxType`: a unit enum variant
serializes as its variant name, so `Standard` / `Private` with capital
letters (no `rename_all` attribute is present on the enum). This is what
`json!` uses for the `tx_type` payload entry. -/
def TxType.serdeSerialize : TxType → Json
  | .Standard => .str "Standard"
  | .Private => .str "Private"

/-- The derived `serde::Deserialize` for `TxType`: accepts exactly the
variant names `"Standard"` / `"Private"`. -/
def TxType.serdeDeserialize (j : Json) : Option TxType :=
  match j with
  | .str "Standard" => some .Standard
  | .str "Private" => some .Private
  | _ => none

/-- The hand-written `impl ToString for TxType`
(`src/resp_structs.rs` lines 76-83): lowercase strings. -/
def TxType.to_string : TxType → String
  | .Standard => "standard"
  | .Private => "private"

/-- The hand-written `impl FromStr for TxType`
(`src/resp_structs.rs` lines 85-94): parses the lowercase strings and
rejects everything else with the `anyhow` message. -/
def TxType.from_str (s : String) : Except String TxType :=
  match s with
  | "standard" => .ok .Standard
  | "private" => .ok .Private
  | _ => .error "Invalid tx type"

/-- `TokenInfo`. -/
structure TokenInfo where
  token : String
  network : String
  contract_address : String
  image : String
  is_native : Bool
deriving DecidableEq, Repr

/-- `TokenList`. -/
structure TokenList where
  network : String
  network_image : String
  tokens : List TokenInfo
deriving DecidableEq, Repr

/-- `ConvertUsd`. -/
structure ConvertUsd where
  from_ : Option Rat
  to_ : Option Rat
deriving DecidableEq, Repr

/-- `QuoteResponse`. -/
structure QuoteResponse where
  network_from : String
  contract_address_from : String
  amount_from : Rat
  network_to : String
  contract_address_to : String
  amount_to : Rat
  convert_usd : ConvertUsd
  tx_type : TxType
deriving DecidableEq, Repr

/-- `TransactionInfo`. -/
structure TransactionInfo where
  id : String
  created_at : Int
  tx_type : TxType
  network_from : String
  contract_address_from : String
  contract_address_to : String
  network_to : String
  amount_from : Rat
  amount_to : Rat
  payin_address : String
  payin_extra_id : Option String
  payin_hash : Option String
  payout_address : String
  payout_extra_id : Option String
  payout_hash : Option String
  convert_usd : Option Rat
  status : String
deriving DecidableEq, Repr

/-- serde decode of a JSON string. -/
def decodeString (j : Json) : Option String := j.asStr

/-- serde decode of an `f64` field: any JSON number. -/
def decodeF64 (j : Json) : Option Rat :=
  match j with
  | .num n => some n
  | _ => none

/-- serde decode of an `i64` field: an integral JSON number in `i64`
range. -/
def decodeI64 (j : Json) : Option Int :=
  match j with
  | .num n =>
    if n.den = 1 ∧ -(2 ^ 63) ≤ n.num ∧ n.num < 2 ^ 63 then some n.num else none
  | _ => none

/-- serde decode of a `bool` field. -/
def decodeBool (j : Json) : Option Bool :=
  match j with
  | .bool b => some b
  | _ => none

/-- A required struct field: missing or mistyped is a deserialization
error. -/
def reqField {α : Type} (fields : List (String × Json)) (key : String)
    (dec : Json → Option α) : Option α :=
  (Json.lookupField fields key).bind dec

/-- An `Option<T>` struct field under derived serde: a missing field and
an explicit null both give `none`; any other value must decode as `T`. -/
def optField {α : Type} (fields : List (String × Json)) (key : String)
    (dec : Json → Option α) : Option (Option α) :=
  match Json.lookupField fields key with
  | none => some none
  | some .null => some none
  | some v => (dec v).map some

/-- Derived `Deserialize` for `TokenInfo`: a JSON object with all five
required fields well-typed (unknown fields are ignored by default). -/
def decodeTokenInfo (j : Json) : Option TokenInfo :=
  match j with
  | .obj fields => do
    let token ← reqField fields "token" decodeString
    let network ← reqField fields "network" decodeString
    let contract_address ← reqField fields "contract_address" decodeString
    let image ← reqField fields "image" decodeString
    let is_native ← reqField fields "is_native" decodeBool
    some ⟨token, network, contract_address, image, is_native⟩
  | _ => none

/-- Derived `Deserialize` for `TokenList`. -/
def decodeTokenList (j : Json) : Option TokenList :=
  match j with
  | .obj fields => do
    let network ← reqField fields "network" decodeString
    let network_image ← reqField fields "network_image" decodeString
    let tokens ← reqField fields "tokens" (fun v =>
      match v with
      | .arr elems => elems.mapM decodeTokenInfo
      | _ => none)
    some ⟨network, network_image, tokens⟩
  | _ => none

/-- `serde_json::from_value::<Vec<TokenList>>`. -/
def decodeTokenListVec (j : Json) : Option (List TokenList) :=
  match j with
  | .arr elems => elems.mapM decodeTokenList
  | _ => none

/-- Derived `Deserialize` for `ConvertUsd`: two `Option<f64>` fields. -/
def decodeConvertUsd (j : Json) : Option ConvertUsd :=
  match j with
  | .obj fields => do
    let f ← optField fields "from" decodeF64
    let t ← optField fields "to" decodeF64
    some ⟨f, t⟩
  | _ => none

/-- Derived `Deserialize` for `QuoteResponse`. -/
def decodeQuoteResponse (j : Json) : Option QuoteResponse :=
  match j with
  | .obj fields => do
    let network_from ← reqField fields "network_from" decodeString
    let contract_address_from ← reqField fields "contract_address_from" decodeString
    let amount_from ← reqField fields "amount_from" decodeF64
    let network_to ← reqField fields "network_to" decodeString
    let contract_address_to ← reqField fields "contract_address_to" decodeString
    let amount_to ← reqField fields "amount_to" decodeF64
    let convert_usd ← reqField fields "convert_usd" decodeConvertUsd
    let tx_type ← reqField fields "tx_type" TxType.serdeDeserialize
    some ⟨network_from, contract_address_from, amount_from, network_to,
          contract_address_to, amount_to, convert_usd, tx_type⟩
  | _ => none

/-- Derived `Deserialize` for `TransactionInfo`. -/
def decodeTransactionInfo (j : Json) : Option TransactionInfo :=
  match j with
  | .obj fields => do
    let id ← reqField fields "id" decodeString
    let created_at ← reqField fields "created_at" decodeI64
    let tx_type ← reqField fields "tx_type" TxType.serdeDeserialize
    let network_from ← reqField fields "network_from" decodeString
    let contract_address_from ← reqField fields "contract_address_from" decodeString
    let contract_address_to ← reqField fields "contract_address_to" decodeString
    let network_to ← reqField fields "network_to" decodeString
    let amount_from ← reqField fields "amount_from" decodeF64
    let amount_to ← reqField fields "amount_to" decodeF64
    let payin_address ← reqField fields "payin_address" decodeString
    let payin_extra_id ← optField fields "payin_extra_id" decodeString
    let payin_hash ← optField fields "payin_hash" decodeString
    let payout_address ← reqField fields "payout_address" decodeString
    let payout_extra_id ← optField fields "payout_extra_id" decodeString
    let payout_hash ← optField fields "payout_hash" decodeString
    let convert_usd ← optField fields "convert_usd" decodeF64
    let status ← reqField fields "status" decodeString
    some ⟨id, created_at, tx_type, network_from, contract_address_from,
          contract_address_to, network_to, amount_from, amount_to,
          payin_address, payin_extra_id, payin_hash, payout_address,
          payout_extra_id, payout_hash, convert_usd, status⟩
  | _ => none

/-! ### The four domain operations (`src/lib.rs` lines 108-326) -/

/-- serde serialization of an `Option` payload argument inside `json!`:
`None` becomes JSON null. -/
def serializeOpt {α : Type} (ser : α → Json) : Option α → Json
  | none => .null
  | some a => ser a

/-- The SDK handle: base URL plus the (unmodelled) `reqwest::Client`. -/
structure FogswapSdk where
  base_url : String
deriving DecidableEq, Repr

/-- `FogswapSdk::BASE_URL`. -/
def FogswapSdk.BASE_URL : String := "https://api.fogswap.io/v1"

/-- `FogswapSdk::new`. -/
def FogswapSdk.new : FogswapSdk := ⟨FogswapSdk.BASE_URL⟩

/-- The envelope-unwrap block shared verbatim by all four operations
(e.g. `src/lib.rs` lines 113-120): `resp.get("error").unwrap()` — a
missing `error` key panics; when the error value is an object, its
`message` field is unwrapped as a string (panicking when missing or not
a string) and becomes the operation's typed error; otherwise
`resp.get("result").unwrap()` — a missing `result` key panics — and the
result is deserialized, a failure there propagating as an error. -/
def unwrap_envelope {α : Type} (resp : Json) (mkErr : String → FogswapSdkError)
    (deser : Json → Option α) : Outcome α :=
  match resp.get "error" with
  | none => .panic
  | some errVal =>
    match errVal.asObject with
    | some e =>
      match Json.lookupField e "message" with
      | none => .panic
      | some m =>
        match m.asStr with
        | none => .panic
        | some s => .error (mkErr s)
    | none =>
      match resp.get "result" with
      | none => .panic
      | some r =>
        match deser r with
        | some a => .ok a
        | none => .formatError

/-- `get_token_list` (`src/lib.rs` lines 108-121): GET `/market/tokens`
with no payload, envelope unwrapped into `Vec<TokenList>` with
`GetAvailableCoinsError` as the error kind. -/
def get_token_list (sdk : FogswapSdk) (transport : HttpRequest → HttpResponse) :
    Outcome (List TokenList) :=
  let endpoint := "/market/tokens"
  (send_request transport sdk.base_url .GET endpoint none).bind fun resp =>
    unwrap_envelope resp .GetAvailableCoinsError decodeTokenListVec

/-- The `json!` payload of `get_quote` (`src/lib.rs` lines 176-184), keys
in source order. -/
def quote_payload (amount_from : Rat)
    (network_from contract_address_from network_to contract_address_to : String)
    (tx_type : Option TxType) (is_use_xmr : Option Bool) : Json :=
  .obj [("amount_from", .num amount_from),
        ("network_from", .str network_from),
        ("contract_address_from", .str contract_address_from),
        ("network_to", .str network_to),
        ("contract_address_to", .str contract_address_to),
        ("tx_type", serializeOpt TxType.serdeSerialize tx_type),
        ("is_use_xmr", serializeOpt Json.bool is_use_xmr)]

/-- `get_quote` (`src/lib.rs` lines 160-195): GET `/transaction/quote`
with the quote payload, envelope unwrapped into `QuoteResponse` with
`GetEstimatedExchangeAmountError` as the error kind. -/
def get_quote (sdk : FogswapSdk) (transport : HttpRequest → HttpResponse)
    (amount_from : Rat)
    (network_from contract_address_from network_to contract_address_to : String)
    (tx_type : Option TxType) (is_use_xmr : Option Bool) :
    Outcome QuoteResponse :=
  let endpoint := "/transaction/quote"
  (send_request transport sdk.base_url .GET endpoint
      (some (quote_payload amount_from network_from contract_address_from
        network_to contract_address_to tx_type is_use_xmr))).bind fun resp =>
    unwrap_envelope resp .GetEstimatedExchangeAmountError decodeQuoteResponse

/-- The `json!` payload of `create_transaction` (`src/lib.rs` lines
256-266), keys in source order. -/
def create_payload
    (network_from contract_address_from network_to contract_address_to : String)
    (amount_from : Rat) (payout_address : String)
    (payout_extra_id : Option String) (tx_type : Option TxType)
    (is_use_xmr : Option Bool) : Json :=
  .obj [("network_from", .str network_from),
        ("contract_address_from", .str contract_address_from),
        ("amount_from", .num amount_from),
        ("network_to", .str network_to),
        ("contract_address_to", .str contract_address_to),
        ("payout_address", .str payout_address),
        ("payout_extra_id", serializeOpt Json.str payout_extra_id),
        ("tx_type", serializeOpt TxType.serdeSerialize tx_type),
        ("is_use_xmr", serializeOpt Json.bool is_use_xmr)]

/-- `create_transaction` (`src/lib.rs` lines 239-277): POST
`/transaction/create` with the creation payload, envelope unwrapped into
`TransactionInfo` with `CreateTransactionError` as the error kind. -/
def create_transaction (sdk : FogswapSdk) (transport : HttpRequest → HttpResponse)
    (network_from contract_address_from network_to contract_address_to : String)
    (amount_from : Rat) (payout_address : String)
    (payout_extra_id : Option String) (tx_type : Option TxType)
    (is_use_xmr : Option Bool) : Outcome TransactionInfo :=
  let endpoint := "/transaction/create"
  (send_request transport sdk.base_url .POST endpoint
      (some (create_payload network_from contract_address_from network_to
        contract_address_to amount_from payout_address payout_extra_id
        tx_type is_use_xmr))).bind fun resp =>
    unwrap_envelope resp .CreateTransactionError decodeTransactionInfo

/-- The `json!` payload of `get_transaction_info` (`src/lib.rs` lines
312-314). -/
def info_payload (id : String) : Json :=
  .obj [("tx_id", .str id)]

/-- `get_transaction_info` (`src/lib.rs` lines 303-325): GET
`/transaction/info` with the id payload, envelope unwrapped into
`TransactionInfo` with `GetTransactionInfoError` as the error kind. -/
def get_transaction_info (sdk : FogswapSdk)
    (transport : HttpRequest → HttpResponse) (id : String) :
    Outcome TransactionInfo :=
  let endpoint := "/transaction/info"
  (send_request transport sdk.base_url .GET endpoint
      (some (info_payload id))).bind fun resp =>
    unwrap_envelope resp .GetTransactionInfoError decodeTransactionInfo

/-- A server that answers every request with HTTP 200 and the given
JSON body. -/
def constServer (envelope : Json) : HttpRequest → HttpResponse :=
  fun _ => ⟨200, some envelope⟩

/-- Whether an outcome is the dispatcher-misuse error. -/
def Outcome.isUnsupported {α : Type} : Outcome α → Bool
  | .error .UnsupportedMethod => true
  | _ => false

/-- The token-list entry of the spec's end-to-end scenario 1:
`\x7b"network":"sol","network_image":"...","tokens":[]\x7d`. -/
def solTokenListJson : Json :=
  .obj [("network", .str "sol"), ("network_image", .str "..."),
        ("tokens", .arr [])]

/-- Scenario 1's envelope exactly as the spec writes it: a bare
`\x7b"result": [...]\x7d` with no `error` key. -/
def scenario1Envelope : Json :=
  .obj [("result", .arr [solTokenListJson])]

/-- The nearest envelope the code accepts: scenario 1's `result` together
with an explicit non-object `error` value. -/
def scenario1EnvelopeWithNullError : Json :=
  .obj [("error", .null), ("result", .arr [solTokenListJson])]

/-! ### Shared lemmas -/

theorem get_token_list_constServer (sdk : FogswapSdk) (envelope : Json) :
    get_token_list sdk (constServer envelope) =
      unwrap_envelope envelope .GetAvailableCoinsError decodeTokenListVec := rfl

theorem get_quote_constServer (sdk : FogswapSdk) (envelope : Json)
    (amount_from : Rat)
    (network_from contract_address_from network_to contract_address_to : String)
    (tx_type : Option TxType) (is_use_xmr : Option Bool) :
    get_quote sdk (constServer envelope) amount_from network_from
        contract_address_from network_to contract_address_to tx_type is_use_xmr =
      unwrap_envelope envelope .GetEstimatedExchangeAmountError decodeQuoteResponse := rfl

theorem create_transaction_constServer (sdk : FogswapSdk) (envelope : Json)
    (network_from contract_address_from network_to contract_address_to : String)
    (amount_from : Rat) (payout_address : String)
    (payout_extra_id : Option String) (tx_type : Option TxType)
    (is_use_xmr : Option Bool) :
    create_transaction sdk (constServer envelope) network_from
        contract_address_from network_to contract_address_to amount_from
        payout_address payout_extra_id tx_type is_use_xmr =
      unwrap_envelope envelope .CreateTransactionError decodeTransactionInfo := rfl

theorem get_transaction_info_constServer (sdk : FogswapSdk) (envelope : Json)
    (id : String) :
    get_transaction_info sdk (constServer envelope) id =
      unwrap_envelope envelope .GetTransactionInfoError decodeTransactionInfo := rfl

theorem unwrap_envelope_of_error {α : Type} (resp errVal m : Json)
    (e : List (String × Json)) (M : String)
    (mkErr : String → FogswapSdkError) (deser : Json → Option α)
    (h1 : resp.get "error" = some errVal)
    (h2 : errVal.asObject = some e)
    (h3 : Json.lookupField e "message" = some m)
    (h4 : m.asStr = some M) :
    unwrap_envelope resp mkErr deser = .error (mkErr M) := by
  simp only [unwrap_envelope, h1, h2, h3, h4]

theorem unwrap_envelope_of_no_error {α : Type} (resp : Json)
    (mkErr : String → FogswapSdkError) (deser : Json → Option α)
    (h : resp.get "error" = none) :
    unwrap_envelope resp mkErr deser = .panic := by
  simp only [unwrap_envelope, h]

theorem unwrap_envelope_of_result {α : Type} (resp errVal r : Json)
    (mkErr : String → FogswapSdkError) (deser : Json → Option α)
    (h1 : resp.get "error" = some errVal)
    (h2 : errVal.asObject = none)
    (h3 : resp.get "result" = some r) :
    unwrap_envelope resp mkErr deser =
      match deser r with
      | some a => .ok a
      | none => .formatError := by
  simp only [unwrap_envelope, h1, h2, h3]

theorem unwrap_envelope_of_no_result {α : Type} (resp errVal : Json)
    (mkErr : String → FogswapSdkError) (deser : Json → Option α)
    (h1 : resp.get "error" = some errVal)
    (h2 : errVal.asObject = none)
    (h3 : resp.get "result" = none) :
    unwrap_envelope resp mkErr deser = .panic := by
  simp only [unwrap_envelope, h1, h2, h3]

theorem unwrap_envelope_of_no_message {α : Type} (resp errVal : Json)
    (e : List (String × Json))
    (mkErr : String → FogswapSdkError) (deser : Json → Option α)
    (h1 : resp.get "error" = some errVal)
    (h2 : errVal.asObject = some e)
    (h3 : Json.lookupField e "message" = none) :
    unwrap_envelope resp mkErr deser = .panic := by
  simp only [unwrap_envelope, h1, h2, h3]

theorem unwrap_envelope_of_message_not_str {α : Type} (resp errVal m : Json)
    (e : List (String × Json))
    (mkErr : String → FogswapSdkError) (deser : Json → Option α)
    (h1 : resp.get "error" = some errVal)
    (h2 : errVal.asObject = some e)
    (h3 : Json.lookupField e "message" = some m)
    (h4 : m.asStr = none) :
    unwrap_envelope resp mkErr deser = .panic := by
  simp only [unwrap_envelope, h1, h2, h3, h4]

theorem unwrap_envelope_not_unsupported {α : Type} (resp : Json)
    (mkErr : String → FogswapSdkError) (deser : Json → Option α)
    (h : ∀ s, mkErr s ≠ .UnsupportedMethod) :
    (unwrap_envelope resp mkErr deser).isUnsupported = false := by
  rcases hget : resp.get "error" with _ | errVal
  · simp only [unwrap_envelope, hget]; rfl
  · rcases hobj : errVal.asObject with _ | e
    · rcases hres : resp.get "result" with _ | r
      · simp only [unwrap_envelope, hget, hobj, hres]; rfl
      · simp only [unwrap_envelope, hget, hobj, hres]
        cases deser r <;> rfl
    · rcases hmsg : Json.lookupField e "message" with _ | m
      · simp only [unwrap_envelope, hget, hobj, hmsg]; rfl
      · rcases hstr : m.asStr with _ | s
        · simp only [unwrap_envelope, hget, hobj, hmsg, hstr]; rfl
        · simp only [unwrap_envelope, hget, hobj, hmsg, hstr]
          cases hmk : mkErr s
          case UnsupportedMethod => exact absurd hmk (h s)
          all_goals rfl

theorem Json.not_isNull_iff (j : Json) : (!j.isNull) = true ↔ j ≠ .null := by
  cases j <;> simp [Json.isNull]

theorem handle_response_not_unsupported (resp : HttpResponse) :
    (handle_response resp).isUnsupported = false := by
  unfold handle_response
  split
  · rfl
  · cases resp.body <;> rfl

theorem send_request_get_not_unsupported (transport : HttpRequest → HttpResponse)
    (base endpoint : String) (payload : Option Json) :
    (send_request transport base .GET endpoint payload).isUnsupported = false := by
  unfold send_request
  rcases payload with _ | p
  · exact handle_response_not_unsupported _
  · cases p <;> first | rfl | exact handle_response_not_unsupported _

theorem send_request_post_not_unsupported (transport : HttpRequest → HttpResponse)
    (base endpoint : String) (payload : Option Json) :
    (send_request transport base .POST endpoint payload).isUnsupported = false := by
  unfold send_request
  rcases payload with _ | p <;> exact handle_response_not_unsupported _

theorem Outcome.bind_not_unsupported {α β : Type} (x : Outcome α)
    (f : α → Outcome β) (hx : x.isUnsupported = false)
    (hf : ∀ a, (f a).isUnsupported = false) :
    (x.bind f).isUnsupported = false := by
  cases x with
  | ok a => exact hf a
  | error e => cases e <;> simp_all [Outcome.bind, Outcome.isUnsupported]
  | formatError => rfl
  | panic => rfl

/-! ### Claims -/

set_option maxRecDepth 100000

/-- C1: for every one of the four domain operations, a 200 envelope whose
top-level `error` field is present as an object with a string `message`
field M makes the operation fail with its dedicated error kind
(GetAvailableCoinsError / GetEstimatedExchangeAmountError /
CreateTransactionError / GetTransactionInfoError) carrying exactly M,
never taking the success path. -/
theorem c1_error_envelope_yields_operation_error
    (envelope errVal m : Json) (e : List (String × Json)) (M : String)
    (h1 : envelope.get "error" = some errVal)
    (h2 : errVal.asObject = some e)
    (h3 : Json.lookupField e "message" = some m)
    (h4 : m.asStr = some M) :
    (∀ sdk, get_token_list sdk (constServer envelope) =
        .error (.GetAvailableCoinsError M)) ∧
    (∀ sdk af nf caf nt cat tt ux,
      get_quote sdk (constServer envelope) af nf caf nt cat tt ux =
        .error (.GetEstimatedExchangeAmountError M)) ∧
    (∀ sdk nf caf nt cat af pa pei tt ux,
      create_transaction sdk (constServer envelope) nf caf nt cat af pa pei tt ux =
        .error (.CreateTransactionError M)) ∧
    (∀ sdk i, get_transaction_info sdk (constServer envelope) i =
        .error (.GetTransactionInfoError M)) := by
  refine ⟨fun sdk => ?_, fun sdk af nf caf nt cat tt ux => ?_,
          fun sdk nf caf nt cat af pa pei tt ux => ?_, fun sdk i => ?_⟩
  · rw [get_token_list_constServer,
        unwrap_envelope_of_error envelope errVal m e M _ _ h1 h2 h3 h4]
  · rw [get_quote_constServer,
        unwrap_envelope_of_error envelope errVal m e M _ _ h1 h2 h3 h4]
  · rw [create_transaction_constServer,
        unwrap_envelope_of_error envelope errVal m e M _ _ h1 h2 h3 h4]
  · rw [get_transaction_info_constServer,
        unwrap_envelope_of_error envelope errVal m e M _ _ h1 h2 h3 h4]

/-- Witness for C1 at the spec's scenario-3 envelope
`\x7b"error":\x7b"message":"not found"\x7d\x7d`. -/
theorem c1_error_envelope_yields_operation_error_witness :
    (Json.obj [("error", Json.obj [("message", Json.str "not found")])]).get "error"
        = some (Json.obj [("message", Json.str "not found")]) ∧
    get_transaction_info FogswapSdk.new
        (constServer (Json.obj [("error", Json.obj [("message", Json.str "not found")])]))
        "S7ZulO3j16" = .error (.GetTransactionInfoError "not found") ∧
    get_token_list FogswapSdk.new
        (constServer (Json.obj [("error", Json.obj [("message", Json.str "not found")])]))
        = .error (.GetAvailableCoinsError "not found") :=
  ⟨rfl,
   (c1_error_envelope_yields_operation_error
      (Json.obj [("error", Json.obj [("message", Json.str "not found")])])
      (Json.obj [("message", Json.str "not found")]) (Json.str "not found")
      [("message", Json.str "not found")] "not found"
      rfl rfl rfl rfl).2.2.2 FogswapSdk.new "S7ZulO3j16",
   (c1_error_envelope_yields_operation_error
      (Json.obj [("error", Json.obj [("message", Json.str "not found")])])
      (Json.obj [("message", Json.str "not found")]) (Json.str "not found")
      [("message", Json.str "not found")] "not found"
      rfl rfl rfl rfl).1 FogswapSdk.new⟩

/-- C2 counterexample: the spec's scenario-1 envelope
`\x7b"result":[...]\x7d` carries no `error` key, so `get_token_list`
panics on `resp.get("error").unwrap()` instead of returning the
one-element sequence the claim promises. -/
theorem c2_scenario1_envelope_panics :
    get_token_list FogswapSdk.new (constServer scenario1Envelope) = .panic ∧
    (Outcome.panic : Outcome (List TokenList)) ≠
      .ok [{ network := "sol", network_image := "...", tokens := [] }] :=
  ⟨rfl, by decide⟩

/-- C2 (amended): when the envelope also carries the `error` key with a
non-object value (here `"error": null`), `get_token_list` on scenario 1's
`result` returns the one-element sequence with network `"sol"` and no
tokens; and in general, whenever `error` is present but not an object,
the operation extracts the top-level `result` field, deserializes it,
and surfaces a structural mismatch as an error rather than silently
defaulting. -/
theorem c2_result_extraction :
    (get_token_list FogswapSdk.new (constServer scenario1EnvelopeWithNullError) =
      .ok [{ network := "sol", network_image := "...", tokens := [] }]) ∧
    (∀ envelope errVal r sdk,
      envelope.get "error" = some errVal → errVal.asObject = none →
      envelope.get "result" = some r →
      (∀ coins, decodeTokenListVec r = some coins →
        get_token_list sdk (constServer envelope) = .ok coins) ∧
      (decodeTokenListVec r = none →
        get_token_list sdk (constServer envelope) = .formatError)) := by
  constructor
  · rfl
  · intro envelope errVal r sdk h1 h2 h3
    rw [get_token_list_constServer,
        unwrap_envelope_of_result envelope errVal r _ _ h1 h2 h3]
    exact ⟨fun coins hc => by rw [hc], fun hn => by rw [hn]⟩

/-- Witness for C2: a structurally mismatched `result` (a token list
whose `network` is a number) surfaces as a format error, not a default. -/
theorem c2_result_extraction_witness :
    get_token_list FogswapSdk.new
        (constServer (.obj [("error", .null),
          ("result", .arr [.obj [("network", .num 5)]])])) = .formatError :=
  (c2_result_extraction.2
      (.obj [("error", .null), ("result", .arr [.obj [("network", .num 5)]])])
      .null (.arr [.obj [("network", .num 5)]]) FogswapSdk.new
      rfl rfl rfl).2 rfl

theorem handle_response_non_200 (resp : HttpResponse) (h : resp.status ≠ 200) :
    handle_response resp = .error .SendRequestError := by
  unfold handle_response
  rw [if_pos h]

/-- C3: whenever the transport answers with any HTTP status other than
exactly 200, every dispatch that reaches it (GET with or without a
parameter object, POST with any payload) fails with `SendRequestError`,
whatever the body holds — the body is quantified over freely inside the
transport, including well-formed success bodies. -/
theorem c3_non_200_yields_send_request_error
    (transport : HttpRequest → HttpResponse)
    (h : ∀ r, (transport r).status ≠ 200) :
    (∀ base endpoint,
      send_request transport base .GET endpoint none = .error .SendRequestError) ∧
    (∀ base endpoint fields,
      send_request transport base .GET endpoint (some (.obj fields)) =
        .error .SendRequestError) ∧
    (∀ base endpoint payload,
      send_request transport base .POST endpoint payload =
        .error .SendRequestError) := by
  refine ⟨fun base endpoint => ?_, fun base endpoint fields => ?_,
          fun base endpoint payload => ?_⟩
  · exact handle_response_non_200 _ (h _)
  · exact handle_response_non_200 _ (h _)
  · rcases payload with _ | p <;> exact handle_response_non_200 _ (h _)

/-- Witness for C3: a 404 answer carrying a perfectly well-formed success
body still yields `SendRequestError`. -/
theorem c3_non_200_yields_send_request_error_witness :
    send_request (fun _ => ⟨404, some scenario1EnvelopeWithNullError⟩)
        FogswapSdk.BASE_URL .GET "/market/tokens" none =
      .error .SendRequestError :=
  (c3_non_200_yields_send_request_error
      (fun _ => ⟨404, some scenario1EnvelopeWithNullError⟩)
      (fun _ => by show (404 : Nat) ≠ 200; decide)).1
    FogswapSdk.BASE_URL "/market/tokens"

/-- C4: contrary to the claim, the value sent under the `tx_type` key is
the capitalized serde variant name `"Standard"` / `"Private"`, not the
lowercase form: the derived `Serialize` on `TxType` (used by the `json!`
payloads) carries no `rename_all` attribute, while the hand-written
`ToString` — which the payloads do not use — produces the lowercase
strings the claim (and the server wire format) expects. -/
theorem c4_tx_type_sent_capitalized :
    ((quote_payload (mkRat 1 1) "sol" "SOL" "sol" "SOL" (some .Private)
        (some true)).get "tx_type" = some (.str "Private")) ∧
    ((create_payload "sol" "SOL" "sol" "SOL" (mkRat 1 2)
        "ARBmhGy4ydx7ouUrLGhgsNJyDMBL25AuKWeh311k8cBP" none (some .Standard)
        (some true)).get "tx_type" = some (.str "Standard")) ∧
    (TxType.serdeSerialize .Private = .str "Private" ∧
      TxType.Private.to_string = "private" ∧ "Private" ≠ "private") ∧
    (∃ r, build_request FogswapSdk.BASE_URL .GET "/transaction/quote"
        (some (quote_payload (mkRat 1 1) "sol" "SOL" "sol" "SOL"
          (some .Private) (some true))) = .req r ∧
      List.IsInfix ("tx_type=Private".data) r.url.data) := by
  refine ⟨rfl, rfl, ⟨rfl, rfl, by decide⟩, ⟨_, rfl, by decide⟩⟩

/-- C5: the hand-written string conversions round-trip — `Private`
encodes to `"private"` which decodes back to `Private`, `Standard` to
`"standard"` and back — and every other string is rejected with the
format error, never silently defaulted. -/
theorem c5_txtype_to_string_from_str_roundtrip :
    (TxType.from_str TxType.Private.to_string = .ok .Private) ∧
    (TxType.from_str "private" = .ok .Private) ∧
    (TxType.from_str TxType.Standard.to_string = .ok .Standard) ∧
    (TxType.from_str "standard" = .ok .Standard) ∧
    (∀ s, s ≠ "standard" → s ≠ "private" →
      TxType.from_str s = .error "Invalid tx type") := by
  refine ⟨rfl, rfl, rfl, rfl, fun s h1 h2 => ?_⟩
  unfold TxType.from_str
  split <;> simp_all

/-- Witness for C5: the string `"swift"` is rejected. -/
theorem c5_txtype_to_string_from_str_roundtrip_witness :
    ("swift" : String) ≠ "standard" ∧ ("swift" : String) ≠ "private" ∧
    TxType.from_str "swift" = .error "Invalid tx type" :=
  ⟨by decide, by decide,
   c5_txtype_to_string_from_str_roundtrip.2.2.2.2 "swift" (by decide) (by decide)⟩

/-- C6: a GET dispatch with a parameter object flattens it into the URL
query string after dropping every null-valued entry; a key belongs to
the flattened parameter list exactly when it is bound to a non-null
value; and concretely, a quote request with `tx_type = null` produces a
URL whose query string has no `tx_type=` substring at all while every
non-null parameter appears as an entry. -/
theorem c6_get_drops_null_params :
    (∀ base endpoint fields,
      build_request base .GET endpoint (some (.obj fields)) =
        .req ⟨.GET,
          base ++ endpoint ++
            querySuffix (fields.filter (fun kv => !kv.2.isNull)),
          false, none⟩) ∧
    (∀ (fields : List (String × Json)) (k : String),
      (∃ v, (k, v) ∈ fields.filter (fun kv => !kv.2.isNull)) ↔
        ∃ v, (k, v) ∈ fields ∧ v ≠ .null) ∧
    (∃ r, build_request FogswapSdk.BASE_URL .GET "/transaction/quote"
        (some (quote_payload (mkRat 1 1) "sol" "SOL" "sol" "SOL" none
          (some true))) = .req r ∧
      ¬ List.IsInfix ("tx_type=".data) r.url.data ∧
      List.IsInfix ("is_use_xmr=".data) r.url.data ∧
      List.IsInfix ("amount_from=".data) r.url.data ∧
      List.IsInfix ("network_from=".data) r.url.data ∧
      List.IsInfix ("contract_address_from=".data) r.url.data ∧
      List.IsInfix ("network_to=".data) r.url.data ∧
      List.IsInfix ("contract_address_to=".data) r.url.data) := by
  refine ⟨fun base endpoint fields => rfl, fun fields k => ?_, ?_⟩
  · constructor
    · rintro ⟨v, hv⟩
      rw [List.mem_filter] at hv
      exact ⟨v, hv.1, (Json.not_isNull_iff v).mp hv.2⟩
    · rintro ⟨v, hv, hnull⟩
      exact ⟨v, List.mem_filter.mpr ⟨hv, (Json.not_isNull_iff v).mpr hnull⟩⟩
  · exact ⟨_, rfl, by decide, by decide, by decide, by decide, by decide,
      by decide, by decide⟩

/-- Witness for C6: a two-entry parameter object with one null entry
flattens to the query built from the non-null entries only. -/
theorem c6_get_drops_null_params_witness :
    build_request "b" .GET "/e" (some (.obj [("a", .null), ("c", .str "x")])) =
      .req ⟨.GET,
        "b" ++ "/e" ++
          querySuffix ([("a", Json.null), ("c", Json.str "x")].filter
            (fun kv => !kv.2.isNull)),
        false, none⟩ :=
  c6_get_drops_null_params.1 "b" "/e" [("a", .null), ("c", .str "x")]

/-- C7: a POST dispatch with a parameter object serializes it as a JSON
body with `Content-Type: application/json`; a `payout_extra_id` of
`None` is kept in the payload as an explicit JSON null, and the
serialized body of a concrete `create_transaction` payload contains the
text `"payout_extra_id":null` rather than dropping the key. -/
theorem c7_post_body_keeps_null_fields :
    (∀ base endpoint p,
      build_request base .POST endpoint (some p) =
        .req ⟨.POST, base ++ endpoint, true, some p.render⟩) ∧
    (∀ nf caf nt cat af pa tt ux,
      (create_payload nf caf nt cat af pa none tt ux).get "payout_extra_id" =
        some .null) ∧
    (List.IsInfix ("\"payout_extra_id\":null".data)
      (create_payload "sol" "SOL" "sol" "SOL" (mkRat 1 2)
        "ARBmhGy4ydx7ouUrLGhgsNJyDMBL25AuKWeh311k8cBP" none (some .Private)
        (some true)).render.data) := by
  exact ⟨fun base endpoint p => rfl, fun nf caf nt cat af pa tt ux => rfl,
    by decide⟩

/-- Witness for C7 at a concrete payload. -/
theorem c7_post_body_keeps_null_fields_witness :
    (create_payload "a" "b" "c" "d" (mkRat 3 1) "e" none none none).get
      "payout_extra_id" = some .null :=
  c7_post_body_keeps_null_fields.2.1 "a" "b" "c" "d" (mkRat 3 1) "e" none none

/-- C8: dispatching with any method outside GET and POST fails with
`UnsupportedMethod` whatever the transport would answer (so before any
network activity), and none of the four domain operations — over every
possible transport and argument list — can ever produce
`UnsupportedMethod`. -/
theorem c8_unsupported_method_only_from_misuse :
    (∀ (transport : HttpRequest → HttpResponse) (base endpoint nm : String)
        (payload : Option Json),
      send_request transport base (.other nm) endpoint payload =
        .error .UnsupportedMethod) ∧
    (∀ sdk transport, (get_token_list sdk transport).isUnsupported = false) ∧
    (∀ sdk transport af nf caf nt cat tt ux,
      (get_quote sdk transport af nf caf nt cat tt ux).isUnsupported = false) ∧
    (∀ sdk transport nf caf nt cat af pa pei tt ux,
      (create_transaction sdk transport nf caf nt cat af pa pei tt
        ux).isUnsupported = false) ∧
    (∀ sdk transport i,
      (get_transaction_info sdk transport i).isUnsupported = false) := by
  refine ⟨fun transport base endpoint nm payload => rfl,
          fun sdk transport => ?_,
          fun sdk transport af nf caf nt cat tt ux => ?_,
          fun sdk transport nf caf nt cat af pa pei tt ux => ?_,
          fun sdk transport i => ?_⟩
  · exact Outcome.bind_not_unsupported _ _
      (send_request_get_not_unsupported transport sdk.base_url "/market/tokens" none)
      (fun resp => unwrap_envelope_not_unsupported resp _ _
        (fun s h => FogswapSdkError.noConfusion h))
  · exact Outcome.bind_not_unsupported _ _
      (send_request_get_not_unsupported transport sdk.base_url "/transaction/quote" _)
      (fun resp => unwrap_envelope_not_unsupported resp _ _
        (fun s h => FogswapSdkError.noConfusion h))
  · exact Outcome.bind_not_unsupported _ _
      (send_request_post_not_unsupported transport sdk.base_url "/transaction/create" _)
      (fun resp => unwrap_envelope_not_unsupported resp _ _
        (fun s h => FogswapSdkError.noConfusion h))
  · exact Outcome.bind_not_unsupported _ _
      (send_request_get_not_unsupported transport sdk.base_url "/transaction/info" _)
      (fun resp => unwrap_envelope_not_unsupported resp _ _
        (fun s h => FogswapSdkError.noConfusion h))

/-- C9: every operation unwraps the envelope's `error` key before
anything else. A 200 envelope with no `error` key at all — the pure
success shape — makes all four operations panic instead of returning;
and when `error` is present but not an object while `result` is absent,
the unwrap of `result` panics as well. -/
theorem c9_missing_error_key_panics (envelope : Json) :
    (envelope.get "error" = none →
      (∀ sdk, get_token_list sdk (constServer envelope) = .panic) ∧
      (∀ sdk af nf caf nt cat tt ux,
        get_quote sdk (constServer envelope) af nf caf nt cat tt ux = .panic) ∧
      (∀ sdk nf caf nt cat af pa pei tt ux,
        create_transaction sdk (constServer envelope) nf caf nt cat af pa pei
          tt ux = .panic) ∧
      (∀ sdk i, get_transaction_info sdk (constServer envelope) i = .panic)) ∧
    (∀ errVal, envelope.get "error" = some errVal → errVal.asObject = none →
      envelope.get "result" = none →
      (∀ sdk, get_token_list sdk (constServer envelope) = .panic) ∧
      (∀ sdk af nf caf nt cat tt ux,
        get_quote sdk (constServer envelope) af nf caf nt cat tt ux = .panic) ∧
      (∀ sdk nf caf nt cat af pa pei tt ux,
        create_transaction sdk (constServer envelope) nf caf nt cat af pa pei
          tt ux = .panic) ∧
      (∀ sdk i, get_transaction_info sdk (constServer envelope) i = .panic)) := by
  constructor
  · intro h
    refine ⟨fun sdk => ?_, fun sdk af nf caf nt cat tt ux => ?_,
            fun sdk nf caf nt cat af pa pei tt ux => ?_, fun sdk i => ?_⟩
    · rw [get_token_list_constServer, unwrap_envelope_of_no_error _ _ _ h]
    · rw [get_quote_constServer, unwrap_envelope_of_no_error _ _ _ h]
    · rw [create_transaction_constServer, unwrap_envelope_of_no_error _ _ _ h]
    · rw [get_transaction_info_constServer, unwrap_envelope_of_no_error _ _ _ h]
  · intro errVal h1 h2 h3
    refine ⟨fun sdk => ?_, fun sdk af nf caf nt cat tt ux => ?_,
            fun sdk nf caf nt cat af pa pei tt ux => ?_, fun sdk i => ?_⟩
    · rw [get_token_list_constServer,
          unwrap_envelope_of_no_result _ errVal _ _ h1 h2 h3]
    · rw [get_quote_constServer,
          unwrap_envelope_of_no_result _ errVal _ _ h1 h2 h3]
    · rw [create_transaction_constServer,
          unwrap_envelope_of_no_result _ errVal _ _ h1 h2 h3]
    · rw [get_transaction_info_constServer,
          unwrap_envelope_of_no_result _ errVal _ _ h1 h2 h3]

/-- Witness for C9: the pure success envelope of scenario 1 makes
`get_token_list` panic, and an envelope whose `error` is a bare string
with no `result` makes `get_transaction_info` panic. -/
theorem c9_missing_error_key_panics_witness :
    scenario1Envelope.get "error" = none ∧
    get_token_list FogswapSdk.new (constServer scenario1Envelope) = .panic ∧
    get_transaction_info FogswapSdk.new
      (constServer (Json.obj [("error", Json.str "oops")])) "S7ZulO3j16" =
        .panic :=
  ⟨rfl,
   ((c9_missing_error_key_panics scenario1Envelope).1 rfl).1 FogswapSdk.new,
   (((c9_missing_error_key_panics (Json.obj [("error", Json.str "oops")])).2
       (Json.str "oops") rfl rfl rfl).2.2.2) FogswapSdk.new "S7ZulO3j16"⟩

/-- C10: when the envelope's `error` field is an object that lacks a
`message` key, or whose `message` value is not a string, every operation
panics on the unwrap instead of returning a typed error or result. -/
theorem c10_malformed_error_object_panics (envelope errVal : Json)
    (e : List (String × Json))
    (h1 : envelope.get "error" = some errVal)
    (h2 : errVal.asObject = some e) :
    (Json.lookupField e "message" = none →
      (∀ sdk, get_token_list sdk (constServer envelope) = .panic) ∧
      (∀ sdk af nf caf nt cat tt ux,
        get_quote sdk (constServer envelope) af nf caf nt cat tt ux = .panic) ∧
      (∀ sdk nf caf nt cat af pa pei tt ux,
        create_transaction sdk (constServer envelope) nf caf nt cat af pa pei
          tt ux = .panic) ∧
      (∀ sdk i, get_transaction_info sdk (constServer envelope) i = .panic)) ∧
    (∀ m, Json.lookupField e "message" = some m → m.asStr = none →
      (∀ sdk, get_token_list sdk (constServer envelope) = .panic) ∧
      (∀ sdk af nf caf nt cat tt ux,
        get_quote sdk (constServer envelope) af nf caf nt cat tt ux = .panic) ∧
      (∀ sdk nf caf nt cat af pa pei tt ux,
        create_transaction sdk (constServer envelope) nf caf nt cat af pa pei
          tt ux = .panic) ∧
      (∀ sdk i, get_transaction_info sdk (constServer envelope) i = .panic)) := by
  constructor
  · intro h3
    refine ⟨fun sdk => ?_, fun sdk af nf caf nt cat tt ux => ?_,
            fun sdk nf caf nt cat af pa pei tt ux => ?_, fun sdk i => ?_⟩
    · rw [get_token_list_constServer,
          unwrap_envelope_of_no_message _ errVal e _ _ h1 h2 h3]
    · rw [get_quote_constServer,
          unwrap_envelope_of_no_message _ errVal e _ _ h1 h2 h3]
    · rw [create_transaction_constServer,
          unwrap_envelope_of_no_message _ errVal e _ _ h1 h2 h3]
    · rw [get_transaction_info_constServer,
          unwrap_envelope_of_no_message _ errVal e _ _ h1 h2 h3]
  · intro m h3 h4
    refine ⟨fun sdk => ?_, fun sdk af nf caf nt cat tt ux => ?_,
            fun sdk nf caf nt cat af pa pei tt ux => ?_, fun sdk i => ?_⟩
    · rw [get_token_list_constServer,
          unwrap_envelope_of_message_not_str _ errVal m e _ _ h1 h2 h3 h4]
    · rw [get_quote_constServer,
          unwrap_envelope_of_message_not_str _ errVal m e _ _ h1 h2 h3 h4]
    · rw [create_transaction_constServer,
          unwrap_envelope_of_message_not_str _ errVal m e _ _ h1 h2 h3 h4]
    · rw [get_transaction_info_constServer,
          unwrap_envelope_of_message_not_str _ errVal m e _ _ h1 h2 h3 h4]

/-- Witness for C10: an empty `error` object makes `get_token_list`
panic, and an `error` object whose `message` is a number makes
`get_quote` panic. -/
theorem c10_malformed_error_object_panics_witness :
    (Json.obj [("error", Json.obj [])]).get "error" = some (Json.obj []) ∧
    get_token_list FogswapSdk.new (constServer (Json.obj [("error", Json.obj [])]))
      = .panic ∧
    get_quote FogswapSdk.new
      (constServer (Json.obj [("error", Json.obj [("message", Json.num 7)])]))
      (mkRat 1 1) "sol" "SOL" "sol" "SOL" none none = .panic :=
  ⟨rfl,
   ((c10_malformed_error_object_panics (Json.obj [("error", Json.obj [])])
       (Json.obj []) [] rfl rfl).1 rfl).1 FogswapSdk.new,
   ((c10_malformed_error_object_panics
       (Json.obj [("error", Json.obj [("message", Json.num 7)])])
       (Json.obj [("message", Json.num 7)]) [("message", Json.num 7)]
       rfl rfl).2 (Json.num 7) rfl rfl).2.1
     FogswapSdk.new (mkRat 1 1) "sol" "SOL" "sol" "SOL" none none⟩
